import Mathlib

/-!
Verification of the two utilities in this repository against their
natural-language specification:

* Flow A (`src/bot.py`): fetch a pull-request diff, send it to a
  chat-completion API for review, post the review as an issue comment.
* Flow B (`src/fast_batch_resizer.py`): batch-resize a directory of
  same-resolution images.

The Python code is shallowly embedded: pure data construction (prompt
strings, JSON payload shapes, target-size arithmetic, control flow of
`main` / `batch_resize_same_resolution`) is translated into executable
Lean definitions.  External library effects (the HTTP client, `json.loads`,
`PIL.Image.open`, the torch resize kernel, the filesystem) are modelled as
explicit inputs: an HTTP exchange outcome, a `String → Option Json` parse
oracle, a per-file decode result, and a listing of the input directory.
Python floats are modelled as rationals, and Python's `int()` conversion
(truncation toward zero) as `pyint`.
-/

/-- A decoded image; only its pixel dimensions matter to the properties
under verification (`sample_img.width` / `sample_img.height` in
`fast_batch_resizer.py`). -/
structure Img where
  width : ℕ
  height : ℕ
deriving DecidableEq, Repr

/-- One directory entry of the input directory, as `Path.iterdir()` yields
it in `fast_batch_resizer.py`: its filename `name`, its `suffix`
(with the leading dot, original case), whether it `is_file()`, and the
outcome of `PIL.Image.open` on it — `none` models a corrupt/undecodable
file, whose `Image.open` raises. -/
structure SrcFile where
  name : String
  suffix : String
  isFile : Bool
  decoded : Option Img
deriving DecidableEq, Repr

/-- The extension allow-list of `fast_batch_resizer.py` line 31. -/
def extensions : List String := [".jpg", ".jpeg", ".png", ".bmp", ".tiff", ".webp"]

/-- Python's `str.lower()`, character by character (ASCII suffices for the
extension comparison). -/
def pylower (s : String) : String := ⟨s.data.map Char.toLower⟩

/-- `image_files = [f for f in input_path.iterdir() if f.suffix.lower() in
extensions and f.is_file()]` (lines 34-35). -/
def image_files (files : List SrcFile) : List SrcFile :=
  files.filter (fun f => extensions.contains (pylower f.suffix) && f.isFile)

/-- Python's `int()` applied to a (here: rational-modelled) float:
truncation toward zero. -/
def pyint (q : ℚ) : ℤ :=
  if q < 0 then -Int.floor (-q) else Int.floor q

/-- Lines 51-56: `if target_size: new_width, new_height = target_size
else: new_height = int(h*scale); new_width = int(w*scale)`.  A `some`
tuple is always truthy in Python (even `(0, 0)`), so the dispatch is a
plain `match`.  The result is `(new_width, new_height)`. -/
def compute_target (sample : Img) (scale_factor : ℚ) (target_size : Option (ℤ × ℤ)) :
    ℤ × ℤ :=
  match target_size with
  | some (w, h) => (w, h)
  | none => (pyint ((sample.width : ℚ) * scale_factor),
             pyint ((sample.height : ℚ) * scale_factor))

/-- The loading loop of lines 69-83: each file is opened; a decode failure
is caught, logged and skipped; on success the (tensor, filename) pair is
accumulated in order. -/
def load_batch (files : List SrcFile) : List (Img × String) :=
  files.filterMap (fun f => f.decoded.map (fun img => (img, f.name)))

/-- Observable outcome of one `batch_resize_same_resolution` run:
whether `output_path.mkdir` ran, and either the list of files written to
the output directory `(filename, (width, height))` — or the message of an
uncaught exception that aborted the run. -/
structure FlowBRun where
  outDirCreated : Bool
  outcome : Except String (List (String × ℤ × ℤ))
deriving Repr

/-- `batch_resize_same_resolution(input_dir, output_dir, scale_factor,
target_size, device)` (lines 16-147), with the input directory listing
passed explicitly.  Control flow, in source order:
1. `output_path.mkdir(parents=True, exist_ok=True)` — unconditional, first;
2. filter the directory by extension allow-list; empty ⇒ print and return;
3. `Image.open(image_files[0])` to sample the resolution — NOT inside any
   `try`, so a corrupt first file raises out of the function;
4. compute the target size from the sample (or the explicit `target_size`);
5. load every file, skipping decode failures with a warning;
6. if nothing loaded, print and return;
7. resize the whole batch to `[new_height, new_width]` and save each
   image under its original filename.
The `device` argument only selects where the tensor lives and is dropped:
it does not affect filenames or output resolutions. -/
def batch_resize_same_resolution (files : List SrcFile) (scale_factor : ℚ)
    (target_size : Option (ℤ × ℤ)) : FlowBRun :=
  match image_files files with
  | [] => ⟨true, .ok []⟩
  | first :: rest =>
    match first.decoded with
    | none => ⟨true, .error "UnidentifiedImageError"⟩
    | some sample =>
      match load_batch (first :: rest) with
      | [] => ⟨true, .ok []⟩
      | loaded => ⟨true, .ok (loaded.map
          (fun p => (p.2, compute_target sample scale_factor target_size)))⟩

/-- Lines 164-167 of `__main__`: `target_size = None; if args.width and
args.height: target_size = (args.width, args.height)`.  Python truthiness:
`None` and `0` are falsy, every other int truthy. -/
def mkTargetSize (width height : Option ℤ) : Option (ℤ × ℤ) :=
  match width, height with
  | some w, some h => if w ≠ 0 ∧ h ≠ 0 then some (w, h) else none
  | _, _ => none

/-- The `__main__` block of `fast_batch_resizer.py`: build `target_size`
from the CLI options and run the batch. -/
def flowB_main (files : List SrcFile) (scale : ℚ) (width height : Option ℤ) :
    FlowBRun :=
  batch_resize_same_resolution files scale (mkTargetSize width height)

/-! ## Flow A — `src/bot.py` -/

/-- A parsed JSON value, as `json.loads` produces it (numbers kept as
rationals; their Python `str()` rendering is passed separately where the
code interpolates them). -/
inductive Json where
  | null
  | bool (b : Bool)
  | num (q : ℚ)
  | str (s : String)
  | arr (items : List Json)
  | obj (fields : List (String × Json))

/-- Python subscript `value[key]` on a parsed JSON value: a dict lookup.
`none` models the exception Python raises (`KeyError` on a missing key,
`TypeError` on a non-dict) — both abort `main` identically. -/
def Json.getKey : Json → String → Option Json
  | .obj fields, key => fields.lookup key
  | _, _ => none

/-- Python subscript `value[i]` on a parsed JSON value: a list index.
`none` models `IndexError` / `TypeError`. -/
def Json.getIdx : Json → ℕ → Option Json
  | .arr items, i => items.get? i
  | _, _ => none

/-- `get_env_var` (bot.py lines 19-35): `value = os.environ.get(name);
if not value: raise BotError(...)` — both an unset variable (`None`) and
the empty string are falsy and raise.  The environment is the explicit
association list `env`. -/
def get_env_var (env : List (String × String)) (name : String) :
    Except String String :=
  match env.lookup name with
  | none => .error ("Environment variable '" ++ name ++ "' is not set")
  | some v =>
    if v = "" then .error ("Environment variable '" ++ name ++ "' is not set")
    else .ok v

/-- `get_pull_request_diff` (lines 38-63): the `urlopen` outcome is the
explicit argument `fetch` (`.error` models a raised `URLError`); a fetch
failure is re-raised as `BotError("Failed to fetch pull request diff: ...")`. -/
def get_pull_request_diff (fetch : Except String String) : Except String String :=
  match fetch with
  | .ok body => .ok body
  | .error e => .error ("Failed to fetch pull request diff: " ++ e)

/-- The body of the triple-quoted f-string of lines 91-95: a leading
newline, two 16-space-indented instruction lines, the diff interpolated
verbatim on its own indented line, and a trailing indented newline. -/
def openrouter_prompt (diff : String) : String :=
  "\n                You are a senior software engineer reviewing a code change.\n                Analyze the following changes and provide a structured review:\n                "
    ++ diff ++ "\n                "

/-- The `data` dict of lines 86-98, which `json.dumps` then serializes as
the POST body: the model name and a single-element `messages` list holding
one `{"role": "user", "content": <prompt>}` message. -/
def openrouter_request (model diff : String) : Json :=
  Json.obj
    [("model", Json.str model),
     ("messages", Json.arr
       [Json.obj [("role", Json.str "user"),
                  ("content", Json.str (openrouter_prompt diff))]])]

/-- Outcome of one HTTP exchange, as `urllib` reports it to the caller:
a success body, an `HTTPError` (status code, reason, error body), or a
`URLError` (reason). -/
inductive HttpResult where
  | success (body : String)
  | httpError (code : ℕ) (reason : String) (errorBody : String)
  | urlError (reason : String)

/-- The response handling of `send_to_openrouter` (lines 107-122): on
success the body is `json.loads`-parsed (a parse failure raises
`JSONDecodeError`, caught and re-raised as `BotError`); an `HTTPError` or
`URLError` is re-raised as `BotError`.  `loads` is the parse oracle
standing for `json.loads`. -/
def send_to_openrouter (loads : String → Option Json) (result : HttpResult) :
    Except String Json :=
  match result with
  | .success body =>
    match loads body with
    | some j => .ok j
    | none => .error "Failed to parse JSON response"
  | .httpError code reason errorBody =>
    .error s!"HTTP Error {code} - {reason}: {errorBody}"
  | .urlError reason => .error ("URL Error: " ++ reason)

/-- Line 148: `payload = json.dumps({"body": f"Review:\n{review_text}\nCost:{cost}"})`.
`cost` is the `str()` rendering of whatever value `main` extracted. -/
def comment_payload (review_text cost : String) : Json :=
  Json.obj [("body", Json.str s!"Review:\n{review_text}\nCost:{cost}")]

/-- The response handling of `add_comment_to_issue` (lines 156-184): on a
success status the body is parsed as JSON, and a `JSONDecodeError` is
swallowed — the function returns `{"raw_response": <raw body>}` instead of
raising; `HTTPError` / `URLError` are re-raised as `BotError`. -/
def add_comment_to_issue (loads : String → Option Json) (result : HttpResult) :
    Except String Json :=
  match result with
  | .success body =>
    match loads body with
    | some j => .ok j
    | none => .ok (Json.obj [("raw_response", Json.str body)])
  | .httpError code reason errorBody =>
    .error s!"HTTP Error {code} - {reason}: {errorBody}"
  | .urlError reason => .error ("URL/Connection Error: " ++ reason)

/-- Line 242: `review_text = response["choices"][0]["message"]["content"]`;
`none` at any step models the uncaught `KeyError`/`IndexError`/`TypeError`. -/
def extract_review_text (response : Json) : Option Json :=
  (((response.getKey "choices").bind (fun c => c.getIdx 0)).bind
      (fun m => m.getKey "message")).bind
    (fun m => m.getKey "content")

/-- Line 243: `cost = response["usage"]["cost"]`. -/
def extract_cost (response : Json) : Option Json :=
  (response.getKey "usage").bind (fun u => u.getKey "cost")

/-- A network request `main` issues, in order: the diff fetch, the review
POST, the comment POST. -/
inductive NetAction where
  | fetchDiff (pr : ℤ)
  | postReview
  | postComment (issue : ℤ)
deriving DecidableEq, Repr

/-- The external world one `main` run sees: the environment, and the
outcome of each of the three HTTP exchanges were it to be issued
(`fetchResult` is what `urlopen` of the diff URL yields, etc.), plus the
`json.loads` parse oracle. -/
structure World where
  env : List (String × String)
  fetchResult : Except String String
  reviewResult : HttpResult
  commentResult : HttpResult
  loads : String → Option Json

/-- Observable outcome of one `main` run: which network requests were
issued, in order, and the process exit code (`exit(1)` via `handle_error`
on any exception; implicit 0 on success). -/
structure MainResult where
  actions : List NetAction
  exitCode : ℕ
deriving DecidableEq, Repr

/-- `main` (lines 199-251), named `bot_main` here because Lean reserves
`main` for an executable entry point: read and validate `GITEA_TOKEN` then
`OPENROUTER_TOKEN` (before any network call) → fetch the diff → send it
for review → extract `choices[0].message.content` and `usage.cost` →
post the comment.  Every raised exception — `BotError` or any other — is
caught by the two trailing `except` clauses and funnelled into
`handle_error`, which prints and exits with status 1. -/
def bot_main (pr issue : ℤ) (w : World) : MainResult :=
  match get_env_var w.env "GITEA_TOKEN" with
  | .error _ => ⟨[], 1⟩
  | .ok _ =>
    match get_env_var w.env "OPENROUTER_TOKEN" with
    | .error _ => ⟨[], 1⟩
    | .ok _ =>
      match get_pull_request_diff w.fetchResult with
      | .error _ => ⟨[.fetchDiff pr], 1⟩
      | .ok _ =>
        match send_to_openrouter w.loads w.reviewResult with
        | .error _ => ⟨[.fetchDiff pr, .postReview], 1⟩
        | .ok response =>
          match extract_review_text response, extract_cost response with
          | some _, some _ =>
            match add_comment_to_issue w.loads w.commentResult with
            | .ok _ => ⟨[.fetchDiff pr, .postReview, .postComment issue], 0⟩
            | .error _ => ⟨[.fetchDiff pr, .postReview, .postComment issue], 1⟩
          | _, _ => ⟨[.fetchDiff pr, .postReview], 1⟩

/-! ## Concrete fixtures used by witness and counterexample statements -/

/-- A review response with `choices[0].message.content` present but no
`usage` key. -/
def responseNoUsage : Json :=
  Json.obj [("choices", Json.arr
    [Json.obj [("message", Json.obj [("content", Json.str "X")])]])]

/-- A world whose review exchange parses to `responseNoUsage` and whose
environment holds both tokens. -/
def worldNoUsage : World :=
  { env := [("GITEA_TOKEN", "g"), ("OPENROUTER_TOKEN", "o")]
    fetchResult := Except.ok "some diff"
    reviewResult := HttpResult.success "review body"
    commentResult := HttpResult.success "comment body"
    loads := fun _ => some responseNoUsage }

/-- A world whose environment is missing `OPENROUTER_TOKEN`. -/
def worldNoToken : World :=
  { env := [("GITEA_TOKEN", "g")]
    fetchResult := Except.ok "some diff"
    reviewResult := HttpResult.success "review body"
    commentResult := HttpResult.success "comment body"
    loads := fun _ => some responseNoUsage }

/-! ## Helper lemmas -/

theorem get_env_var_error (env : List (String × String)) (n : String)
    (h : env.lookup n = none ∨ env.lookup n = some "") :
    get_env_var env n =
      Except.error ("Environment variable '" ++ n ++ "' is not set") := by
  rcases h with h | h <;> simp [get_env_var, h]

theorem batch_outDirCreated (files : List SrcFile) (s : ℚ) (ts : Option (ℤ × ℤ)) :
    (batch_resize_same_resolution files s ts).outDirCreated = true := by
  cases h : image_files files with
  | nil => simp [batch_resize_same_resolution, h]
  | cons first rest =>
    cases hd : first.decoded with
    | none => simp [batch_resize_same_resolution, h, hd]
    | some sample =>
      cases hl : load_batch (first :: rest) with
      | nil => simp [batch_resize_same_resolution, h, hd, hl]
      | cons p ps => simp [batch_resize_same_resolution, h, hd, hl]

theorem batch_outcome_of_decode (files : List SrcFile) (s : ℚ) (ts : Option (ℤ × ℤ))
    (first : SrcFile) (rest : List SrcFile) (sample : Img)
    (h : image_files files = first :: rest) (hd : first.decoded = some sample) :
    (batch_resize_same_resolution files s ts).outcome =
      Except.ok ((load_batch (first :: rest)).map
        (fun p => (p.2, compute_target sample s ts))) := by
  simp only [batch_resize_same_resolution, h, hd]
  cases hl : load_batch (first :: rest) with
  | nil => simp
  | cons p ps => simp

theorem length_load_batch (l : List SrcFile) :
    (load_batch l).length + l.countP (fun f => f.decoded.isNone) = l.length := by
  simp only [load_batch]
  induction l with
  | nil => rfl
  | cons a t ih =>
    cases hd : a.decoded with
    | none =>
      simp only [List.filterMap_cons, hd, Option.map_none', List.countP_cons,
        Option.isNone_none, List.length_cons, if_pos]
      omega
    | some img =>
      simp only [List.filterMap_cons, hd, Option.map_some', List.countP_cons,
        Option.isNone_some, List.length_cons]
      simp only [Bool.false_eq_true, if_false]
      omega

theorem batch_explicit_target (files : List SrcFile) (s s' : ℚ) (t : ℤ × ℤ) :
    batch_resize_same_resolution files s (some t) =
      batch_resize_same_resolution files s' (some t) := by
  cases h : image_files files with
  | nil => simp [batch_resize_same_resolution, h]
  | cons first rest =>
    cases hd : first.decoded with
    | none => simp [batch_resize_same_resolution, h, hd]
    | some sample =>
      cases hl : load_batch (first :: rest) with
      | nil => simp [batch_resize_same_resolution, h, hd, hl]
      | cons p ps =>
        simp [batch_resize_same_resolution, h, hd, hl, compute_target]

theorem batch_explicit_target_outputs (files : List SrcFile) (s : ℚ) (t : ℤ × ℤ)
    (outs : List (String × ℤ × ℤ))
    (h : (batch_resize_same_resolution files s (some t)).outcome = Except.ok outs) :
    ∀ o ∈ outs, o.2 = t := by
  cases himg : image_files files with
  | nil =>
    simp only [batch_resize_same_resolution, himg, Except.ok.injEq] at h
    subst h
    intro o ho
    cases ho
  | cons first rest =>
    cases hd : first.decoded with
    | none => simp [batch_resize_same_resolution, himg, hd] at h
    | some sample =>
      rw [batch_outcome_of_decode files s (some t) first rest sample himg hd] at h
      simp only [Except.ok.injEq] at h
      subst h
      intro o ho
      simp only [List.mem_map] at ho
      obtain ⟨q, hq, rfl⟩ := ho
      simp [compute_target]

/-! ## Claims about Flow B -/

/-- C1 (counterexample): the claim's rounding rule fails on the code.  For
one 3×3 image and scale factor 1/2, the code computes `int(3 * 0.5) = 1`
(truncation) and writes a 1×1 image, while arithmetic rounding gives
`round(1.5) = 2`. -/
theorem C1_counterexample :
    (batch_resize_same_resolution [⟨"a.jpg", ".jpg", true, some ⟨3, 3⟩⟩]
        (1/2) none).outcome = Except.ok [("a.jpg", ((1 : ℤ), (1 : ℤ)))] ∧
    (1 : ℤ) ≠ round ((3 : ℚ) * (1/2)) := by
  constructor
  · simp [batch_resize_same_resolution, image_files, pylower, extensions,
      load_batch, compute_target, pyint]
    norm_num
  · rw [round_eq]
    norm_num

/-- C1 (amended): for Flow B on N input images of identical resolution
(w, h) and scale factor s with no explicit width/height, every image
written to the output directory has resolution
`(int(w*s), int(h*s))` — Python `int()` truncation toward zero, not
arithmetic rounding — and at least one image is written. -/
theorem C1_output_resolution (files : List SrcFile) (s : ℚ) (w h : ℕ)
    (hne : image_files files ≠ [])
    (hdec : ∀ f ∈ image_files files, f.decoded = some ⟨w, h⟩) :
    ∃ outs, (batch_resize_same_resolution files s none).outcome = Except.ok outs ∧
      outs ≠ [] ∧
      ∀ o ∈ outs, o.2 = (pyint ((w : ℚ) * s), pyint ((h : ℚ) * s)) := by
  obtain ⟨first, rest, hfr⟩ : ∃ a l, image_files files = a :: l := by
    cases himg : image_files files with
    | nil => exact absurd himg hne
    | cons a l => exact ⟨a, l, rfl⟩
  have hd : first.decoded = some ⟨w, h⟩ := hdec first (hfr ▸ List.mem_cons_self _ _)
  refine ⟨_, batch_outcome_of_decode files s none first rest ⟨w, h⟩ hfr hd, ?_, ?_⟩
  · simp [load_batch, List.filterMap_cons, hd]
  · intro o ho
    simp only [List.mem_map] at ho
    obtain ⟨p, hp, rfl⟩ := ho
    simp [compute_target]

/-- Witness for C1 (amended): two 5×4 images at scale 1/2. -/
theorem C1_output_resolution_witness :
    ∃ outs, (batch_resize_same_resolution
        [⟨"a.jpg", ".jpg", true, some ⟨5, 4⟩⟩, ⟨"b.png", ".png", true, some ⟨5, 4⟩⟩]
        (1/2) none).outcome = Except.ok outs ∧
      outs ≠ [] ∧
      ∀ o ∈ outs, o.2 = (pyint (((5 : ℕ) : ℚ) * (1/2)), pyint (((4 : ℕ) : ℚ) * (1/2))) :=
  C1_output_resolution
    [⟨"a.jpg", ".jpg", true, some ⟨5, 4⟩⟩, ⟨"b.png", ".png", true, some ⟨5, 4⟩⟩]
    (1/2) 5 4 (by decide) (by decide)

/-- C2 (counterexample): the claim fails as stated when the corrupt file
is the *first* enumerated one: `Image.open(image_files[0])` at line 47 is
outside any `try`, so the run aborts with an uncaught exception and writes
no output at all (instead of the claimed N−1 = 1 outputs). -/
theorem C2_counterexample :
    (batch_resize_same_resolution
        [⟨"bad.jpg", ".jpg", true, none⟩, ⟨"good.jpg", ".jpg", true, some ⟨4, 4⟩⟩]
        (1/2) none).outcome = Except.error "UnidentifiedImageError" ∧
    ∀ outs, (batch_resize_same_resolution
        [⟨"bad.jpg", ".jpg", true, none⟩, ⟨"good.jpg", ".jpg", true, some ⟨4, 4⟩⟩]
        (1/2) none).outcome ≠ Except.ok outs := by
  have h1 : (batch_resize_same_resolution
      [⟨"bad.jpg", ".jpg", true, none⟩, ⟨"good.jpg", ".jpg", true, some ⟨4, 4⟩⟩]
      (1/2) none).outcome = Except.error "UnidentifiedImageError" := by
    simp [batch_resize_same_resolution, image_files, pylower, extensions]
  refine ⟨h1, fun outs hc => ?_⟩
  rw [h1] at hc
  simp at hc

/-- C2 (amended): provided the corrupt file is not the first enumerated
image, Flow B completes without aborting, writes exactly N−1 output
images, and each one is resized to the target resolution sampled from the
first image. -/
theorem C2_skip_corrupt (files : List SrcFile) (s : ℚ) (ts : Option (ℤ × ℤ))
    (first : SrcFile) (rest : List SrcFile) (sample : Img)
    (h : image_files files = first :: rest) (hd : first.decoded = some sample)
    (hcount : (first :: rest).countP (fun f => f.decoded.isNone) = 1) :
    ∃ outs, (batch_resize_same_resolution files s ts).outcome = Except.ok outs ∧
      outs.length = (first :: rest).length - 1 ∧
      ∀ o ∈ outs, o.2 = compute_target sample s ts := by
  refine ⟨_, batch_outcome_of_decode files s ts first rest sample h hd, ?_, ?_⟩
  · have hlen := length_load_batch (first :: rest)
    rw [hcount] at hlen
    simp only [List.length_map]
    omega
  · intro o ho
    simp only [List.mem_map] at ho
    obtain ⟨p, hp, rfl⟩ := ho
    rfl

/-- Witness for C2 (amended): three matching files, the second corrupt;
the run succeeds with 2 outputs. -/
theorem C2_skip_corrupt_witness :
    ∃ outs, (batch_resize_same_resolution
        [⟨"a.jpg", ".jpg", true, some ⟨4, 4⟩⟩, ⟨"bad.png", ".png", true, none⟩,
         ⟨"c.jpg", ".jpg", true, some ⟨4, 4⟩⟩] (1/2) none).outcome = Except.ok outs ∧
      outs.length = ([⟨"a.jpg", ".jpg", true, some ⟨4, 4⟩⟩, ⟨"bad.png", ".png", true, none⟩,
         ⟨"c.jpg", ".jpg", true, some ⟨4, 4⟩⟩] : List SrcFile).length - 1 ∧
      ∀ o ∈ outs, o.2 = compute_target ⟨4, 4⟩ (1/2) none :=
  C2_skip_corrupt
    [⟨"a.jpg", ".jpg", true, some ⟨4, 4⟩⟩, ⟨"bad.png", ".png", true, none⟩,
     ⟨"c.jpg", ".jpg", true, some ⟨4, 4⟩⟩] (1/2) none
    ⟨"a.jpg", ".jpg", true, some ⟨4, 4⟩⟩
    [⟨"bad.png", ".png", true, none⟩, ⟨"c.jpg", ".jpg", true, some ⟨4, 4⟩⟩]
    ⟨4, 4⟩ (by decide) (by decide) (by decide)

/-- C7 (counterexample): the claim fails as stated when `--width 0` is
supplied: `args.width and args.height` is falsy at `0`, so the explicit
pair `(0, 5)` is discarded and the scale factor is used — the single
100×80 image is written at 50×40, not at the claimed (0, 5). -/
theorem C7_counterexample :
    (flowB_main [⟨"a.jpg", ".jpg", true, some ⟨100, 80⟩⟩] (1/2)
        (some 0) (some 5)).outcome =
      Except.ok [("a.jpg", ((50 : ℤ), (40 : ℤ)))] ∧
    ((50 : ℤ), (40 : ℤ)) ≠ ((0 : ℤ), (5 : ℤ)) := by
  constructor
  · simp [flowB_main, mkTargetSize, batch_resize_same_resolution, image_files,
      pylower, extensions, load_batch, compute_target, pyint]
    norm_num
  · simp

/-- C7 (amended): whenever both `--width` and `--height` are supplied with
nonzero values, the target resolution of every output image is exactly
(width, height), and the scale factor has no effect on the run at all (two
runs differing only in the scale factor are identical). -/
theorem C7_explicit_size (files : List SrcFile) (w h : ℤ) (s s' : ℚ)
    (hw : w ≠ 0) (hh : h ≠ 0) :
    flowB_main files s (some w) (some h) = flowB_main files s' (some w) (some h) ∧
    ∀ outs, (flowB_main files s (some w) (some h)).outcome = Except.ok outs →
      ∀ o ∈ outs, o.2 = (w, h) := by
  have hmk : mkTargetSize (some w) (some h) = some (w, h) := by
    simp [mkTargetSize, hw, hh]
  constructor
  · simp only [flowB_main, hmk]
    exact batch_explicit_target files s s' (w, h)
  · intro outs houts
    simp only [flowB_main, hmk] at houts
    exact batch_explicit_target_outputs files s (w, h) outs houts

/-- Witness for C7 (amended): one 100×80 image, explicit 30×20 target,
scale factors 1/2 vs 1/4. -/
theorem C7_explicit_size_witness :
    (flowB_main [⟨"a.jpg", ".jpg", true, some ⟨100, 80⟩⟩] (1/2)
        (some 30) (some 20)) =
      (flowB_main [⟨"a.jpg", ".jpg", true, some ⟨100, 80⟩⟩] (1/4)
        (some 30) (some 20)) ∧
    ∀ outs, (flowB_main [⟨"a.jpg", ".jpg", true, some ⟨100, 80⟩⟩] (1/2)
        (some 30) (some 20)).outcome = Except.ok outs →
      ∀ o ∈ outs, o.2 = ((30 : ℤ), (20 : ℤ)) :=
  C7_explicit_size [⟨"a.jpg", ".jpg", true, some ⟨100, 80⟩⟩] 30 20 (1/2) (1/4)
    (by decide) (by decide)

/-- C9: when exactly one of `--width`/`--height` is supplied, or either
is supplied as 0, the explicit target is silently discarded — the
`args.width and args.height` truthiness test leaves `target_size = None` —
and the run is identical to a scale-factor run. -/
theorem C9_truthiness (files : List SrcFile) (s : ℚ) (width height : Option ℤ)
    (h : (width = none ∧ height ≠ none) ∨ (width ≠ none ∧ height = none) ∨
         width = some 0 ∨ height = some 0) :
    mkTargetSize width height = none ∧
    flowB_main files s width height = batch_resize_same_resolution files s none := by
  have hmk : mkTargetSize width height = none := by
    rcases h with ⟨h1, _⟩ | ⟨_, h1⟩ | h1 | h1
    · simp [mkTargetSize, h1]
    · cases width <;> simp [mkTargetSize, h1]
    · cases height <;> simp [mkTargetSize, h1]
    · cases width <;> simp [mkTargetSize, h1]
  exact ⟨hmk, by simp [flowB_main, hmk]⟩

/-- Witness for C9: `--width 0 --height 5` is discarded and the scale
factor drives the run. -/
theorem C9_truthiness_witness :
    mkTargetSize (some 0) (some 5) = none ∧
    flowB_main [⟨"a.jpg", ".jpg", true, some ⟨100, 80⟩⟩] (1/2) (some 0) (some 5) =
      batch_resize_same_resolution [⟨"a.jpg", ".jpg", true, some ⟨100, 80⟩⟩]
        (1/2) none :=
  C9_truthiness [⟨"a.jpg", ".jpg", true, some ⟨100, 80⟩⟩] (1/2) (some 0) (some 5)
    (Or.inr (Or.inr (Or.inl rfl)))

/-- C10: the output directory (with parents) is created unconditionally at
function entry, before the input directory is enumerated; in particular,
when no file matches the extension allow-list the run returns early with
no outputs, yet the output directory was still created. -/
theorem C10_outdir_created (files : List SrcFile) (s : ℚ) (ts : Option (ℤ × ℤ)) :
    (batch_resize_same_resolution files s ts).outDirCreated = true ∧
    (image_files files = [] →
      (batch_resize_same_resolution files s ts).outcome = Except.ok []) := by
  refine ⟨batch_outDirCreated files s ts, fun h => ?_⟩
  simp [batch_resize_same_resolution, h]

/-- Witness for C10: a directory holding only a `.txt` file — no match,
no outputs, directory still created. -/
theorem C10_outdir_created_witness :
    (batch_resize_same_resolution [⟨"notes.txt", ".txt", true, none⟩]
        (1/2) none).outDirCreated = true ∧
    (batch_resize_same_resolution [⟨"notes.txt", ".txt", true, none⟩]
        (1/2) none).outcome = Except.ok [] :=
  ⟨(C10_outdir_created [⟨"notes.txt", ".txt", true, none⟩] (1/2) none).1,
   (C10_outdir_created [⟨"notes.txt", ".txt", true, none⟩] (1/2) none).2 (by decide)⟩

/-! ## Claims about Flow A -/

/-- C3: whenever the parsed review response lacks the `usage` key (or the
whole `choices[0].message.content` path), `main` aborts with exit status 1
and the comment-post request is never issued: the extraction at lines
242-243 raises before `add_comment_to_issue` at line 246 is reached. -/
theorem C3_missing_usage_no_comment (pr issue : ℤ) (w : World) (response : Json)
    (hrev : send_to_openrouter w.loads w.reviewResult = Except.ok response)
    (hbad : response.getKey "usage" = none ∨ extract_review_text response = none) :
    (bot_main pr issue w).exitCode = 1 ∧
    ∀ i, NetAction.postComment i ∉ (bot_main pr issue w).actions := by
  have hco : extract_cost response = none ∨ extract_review_text response = none := by
    rcases hbad with hb | hb
    · left; simp [extract_cost, hb]
    · right; exact hb
  have hfall : bot_main pr issue w = ⟨[], 1⟩ ∨
      bot_main pr issue w = ⟨[NetAction.fetchDiff pr], 1⟩ ∨
      bot_main pr issue w = ⟨[NetAction.fetchDiff pr, NetAction.postReview], 1⟩ := by
    cases hg : get_env_var w.env "GITEA_TOKEN" with
    | error e => left; simp [bot_main, hg]
    | ok v =>
      cases ho : get_env_var w.env "OPENROUTER_TOKEN" with
      | error e => left; simp [bot_main, hg, ho]
      | ok v2 =>
        cases hf : get_pull_request_diff w.fetchResult with
        | error e => right; left; simp [bot_main, hg, ho, hf]
        | ok d =>
          right; right
          rcases hco with hc | hc
          · cases hr : extract_review_text response with
            | none => simp [bot_main, hg, ho, hf, hrev, hr, hc]
            | some rv => simp [bot_main, hg, ho, hf, hrev, hr, hc]
          · cases hc2 : extract_cost response with
            | none => simp [bot_main, hg, ho, hf, hrev, hc, hc2]
            | some cv => simp [bot_main, hg, ho, hf, hrev, hc, hc2]
  rcases hfall with he | he | he <;> rw [he] <;>
    exact ⟨rfl, fun i hi => by simp at hi⟩

/-- Witness for C3: a well-formed world whose review response has
`choices[0].message.content` but no `usage` key. -/
theorem C3_missing_usage_no_comment_witness :
    (bot_main 1 2 worldNoUsage).exitCode = 1 ∧
    ∀ i, NetAction.postComment i ∉ (bot_main 1 2 worldNoUsage).actions :=
  C3_missing_usage_no_comment 1 2 worldNoUsage responseNoUsage rfl (Or.inl rfl)

/-- C4: for every review text X and (string-rendered) cost C, the JSON
body POSTed by `add_comment_to_issue` is exactly
`{"body": "Review:\n" + X + "\nCost:" + C}`; in particular for X = "X"
and C = 0.01 (whose Python `str()` is "0.01") the body string is exactly
`"Review:\nX\nCost:0.01"`. -/
theorem C4_comment_body (X C : String) :
    comment_payload X C =
      Json.obj [("body", Json.str ("Review:\n" ++ X ++ "\nCost:" ++ C))] ∧
    comment_payload "X" "0.01" =
      Json.obj [("body", Json.str "Review:\nX\nCost:0.01")] := by
  constructor
  · simp only [comment_payload, toString, String.append_empty, String.append_assoc]
  · rfl

/-- C5: when the comment-post HTTP exchange completes with a success
status but a body that `json.loads` cannot parse, `add_comment_to_issue`
returns normally with the fallback dictionary `{"raw_response": <raw
body>}` instead of raising. -/
theorem C5_raw_fallback (loads : String → Option Json) (body : String)
    (h : loads body = none) :
    add_comment_to_issue loads (HttpResult.success body) =
      Except.ok (Json.obj [("raw_response", Json.str body)]) := by
  simp [add_comment_to_issue, h]

/-- Witness for C5: a parser that rejects everything, a non-JSON body. -/
theorem C5_raw_fallback_witness :
    add_comment_to_issue (fun _ => none) (HttpResult.success "<html>oops</html>") =
      Except.ok (Json.obj [("raw_response", Json.str "<html>oops</html>")]) :=
  C5_raw_fallback (fun _ => none) "<html>oops</html>" rfl

/-- C6: if `GITEA_TOKEN` or `OPENROUTER_TOKEN` is unset or empty, `main`
exits with status 1 having issued no network request at all: both
variables are read and validated before the diff fetch. -/
theorem C6_env_abort (pr issue : ℤ) (w : World)
    (h : (w.env.lookup "GITEA_TOKEN" = none ∨ w.env.lookup "GITEA_TOKEN" = some "") ∨
         (w.env.lookup "OPENROUTER_TOKEN" = none ∨
          w.env.lookup "OPENROUTER_TOKEN" = some "")) :
    (bot_main pr issue w).actions = [] ∧ (bot_main pr issue w).exitCode = 1 := by
  rcases h with h | h
  · have hg := get_env_var_error w.env "GITEA_TOKEN" h
    simp [bot_main, hg]
  · cases hg : get_env_var w.env "GITEA_TOKEN" with
    | error e => simp [bot_main, hg]
    | ok v =>
      have ho := get_env_var_error w.env "OPENROUTER_TOKEN" h
      simp [bot_main, hg, ho]

/-- Witness for C6: an environment holding only `GITEA_TOKEN`. -/
theorem C6_env_abort_witness :
    (bot_main 1 2 worldNoToken).actions = [] ∧
    (bot_main 1 2 worldNoToken).exitCode = 1 :=
  C6_env_abort 1 2 worldNoToken (Or.inr (Or.inl rfl))

/-- C8: for every diff D and model, the request body built by
`send_to_openrouter` holds exactly one message, its role is "user", and
its content embeds D verbatim as a contiguous substring between the two
fixed halves of the instructional prompt template. -/
theorem C8_request_embeds_diff (model diff : String) :
    (openrouter_request model diff).getKey "messages" =
      some (Json.arr [Json.obj [("role", Json.str "user"),
        ("content", Json.str (openrouter_prompt diff))]]) ∧
    ∃ pre post, openrouter_prompt diff = pre ++ diff ++ post := by
  refine ⟨rfl, ⟨_, _, rfl⟩⟩
